import Mathlib

set_option maxRecDepth 8000

/-!
Shallow embedding of the withdrawal dispatcher of src/main.py.

The dispatcher, process_withdrawal (src/main.py lines 131-340), validates a
request, builds a prioritized contract list, and tries mint then transfer on
each contract through an external chain client (web3).  All chain
interactions are modelled by an explicit per-contract oracle (ContractEnv):
each field gives the outcome of one external call, in the order the code
performs them.  The dispatcher also emits a trace of ChainCall events so
that statements such as "no chain interaction happens" or "exactly six
attempts are made" are statements about the trace.
-/

/-- A configured contract target (src/main.py lines 28-32). -/
structure Contract where
  id : Nat
  name : String
  address : String
deriving DecidableEq, Repr

/-- The first hardcoded production contract (src/main.py line 29). -/
def contract1 : Contract := ⟨1, "Primary", "0x29983BE497D4c1D39Aa80D20Cf74173ae81D2af5"⟩

/-- The second hardcoded production contract (src/main.py line 30). -/
def contract2 : Contract := ⟨2, "Secondary", "0x0b8Add0d32eFaF79E6DB4C58CcA61D6eFBCcAa3D"⟩

/-- The third hardcoded production contract (src/main.py line 31). -/
def contract3 : Contract := ⟨3, "Tertiary", "0xf97A395850304b8ec9B8f9c80A17674886612065"⟩

/-- The three hardcoded production contracts (src/main.py lines 28-32). -/
def CONTRACTS : List Contract := [contract1, contract2, contract3]

/-- ASCII lower-casing of one character, modelling Python str.lower on the
ASCII range (contract addresses are ASCII hex strings). -/
def lowerChar (c : Char) : Char :=
  if 'A' ≤ c ∧ c ≤ 'Z' then Char.ofNat (c.toNat + 32) else c

/-- ASCII lower-casing of a string, modelling Python str.lower as used at
src/main.py line 161. -/
def lowerStr (s : String) : String := String.mk (s.data.map lowerChar)

/-- One hexadecimal digit. -/
def isHexDigit (c : Char) : Bool :=
  (decide ('0' ≤ c) && decide (c ≤ '9')) ||
  (decide ('a' ≤ c) && decide (c ≤ 'f')) ||
  (decide ('A' ≤ c) && decide (c ≤ 'F'))

/-- Modelled from the spec: the chain library's address syntax check
(Web3.is_address, called at src/main.py line 149; the library itself is not
part of src/).  The spec calls it "a syntactically valid account address":
a 0x-prefixed 40-hex-digit string.  EIP-55 mixed-case checksum rejection is
not modelled; the claims touched by this predicate are settled on inputs
where the model and the library agree. -/
def is_address (s : String) : Bool :=
  match s.data with
  | '0' :: 'x' :: rest => rest.length == 40 && rest.all isHexDigit
  | _ => false

/-- Python int() applied to a (here: rational) number: truncation toward
zero.  Used to model src/main.py line 200. -/
def pyInt (q : ℚ) : ℤ := if 0 ≤ q then Int.floor q else Int.ceil q

/-- The gas-price buffer, int(current_gas_price * 1.2) at src/main.py
line 205, modelled exactly over the integers. -/
def bufferedGasPrice (g : Nat) : Nat := g * 6 / 5

/-- First phase of the contract priority list of src/main.py
lines 157-162: every configured contract whose address case-insensitively
equals the preferred contract is inserted at position 0 (Python
list.insert(0, c) per match, so a left fold prepending each match). -/
def preferredMatches (p : String) : List Contract :=
  CONTRACTS.foldl
    (fun acc c => if lowerStr c.address = lowerStr p then c :: acc else acc) []

/-- Second phase of src/main.py lines 157-166: append every configured
contract not already in the list, in configured order. -/
def buildContractList (preferred : Option String) : List Contract :=
  let l1 : List Contract :=
    match preferred with
    | none => []
    | some p => if p = "" then [] else preferredMatches p
  CONTRACTS.foldl (fun acc c => if c ∈ acc then acc else acc ++ [c]) l1

/-- A transaction receipt as consumed by the code (fields read at
src/main.py lines 236-237 and 302-303). -/
structure Receipt where
  status : Nat
  blockNumber : Nat
  gasUsed : Nat
  effectiveGasPrice : Nat
deriving DecidableEq, Repr

/-- The outcome of one broadcast-and-wait round trip: the transaction hash
returned by send_raw_transaction together with the receipt returned by
wait_for_transaction_receipt. -/
structure TxResult where
  txHash : String
  receipt : Receipt
deriving DecidableEq, Repr

/-- The chain oracle for one contract iteration of the attempt loop
(src/main.py lines 176-333).  Each field is the outcome of one external
round trip, in the order the code performs them; an error value means the
corresponding call raised.  The mint and transfer fields bundle the whole
build-sign-broadcast-wait sequence of the respective method block: any
exception in that sequence is one error outcome. -/
structure ContractEnv where
  bind : Except String Unit
  metadata : Except String (String × Nat × String)
  gasPrice : Except String Nat
  nonce1 : Except String Nat
  mint : Except String TxResult
  nonce2 : Except String Nat
  transfer : Except String TxResult
deriving Repr

/-- The process-wide state consulted by process_withdrawal: whether the
web3 instance and the admin account are loaded (src/main.py line 145), the
admin address, and the per-contract chain oracle. -/
structure Env where
  web3Loaded : Bool
  adminLoaded : Bool
  adminAddress : String
  forContract : String → ContractEnv

/-- The two withdrawal methods tried on each contract. -/
inductive MethodKind where
  | mint
  | transfer
deriving DecidableEq, Repr

/-- Parameters of a built transaction, as passed to build_transaction at
src/main.py lines 215-224 and 281-290. -/
structure Tx where
  dest : String
  amountWei : ℤ
  fromAddr : String
  nonce : Nat
  gas : Nat
  gasPrice : Nat
  chainId : Nat
deriving DecidableEq, Repr

/-- One chain interaction event.  The methodEntry event marks the start of
a mint or transfer method block (one attempt); buildTx records the
parameters handed to build_transaction. -/
inductive ChainCall where
  | bindContract (addr : String)
  | metadataQuery (addr : String)
  | gasPriceQuery
  | nonceQuery
  | methodEntry (addr : String) (m : MethodKind)
  | buildTx (addr : String) (m : MethodKind) (tx : Tx)
  | balanceQuery
deriving DecidableEq, Repr

/-- The dictionary returned on success (src/main.py lines 247-257 and
313-323). -/
structure SuccessResult where
  method : String
  contract : String
  contractAddress : String
  txHash : String
  blockNumber : Nat
  symbol : String
  gasUsed : ℚ
  amount : ℚ
deriving DecidableEq, Repr

/-- The failures process_withdrawal can raise: HTTPException 503 at line
147, ValueError at lines 151 and 155, HTTPException 500 at line 340 (whose
detail string is the given constant). -/
inductive WErr where
  | notReady
  | invalidAddress
  | invalidAmount
  | allExhausted (detail : String)
deriving DecidableEq, Repr

/-- Token symbol resolved from the metadata call, with the default "TOKEN"
substituted on failure (src/main.py lines 188-196). -/
def resolvedSymbol : Except String (String × Nat × String) → String
  | .ok (s, _, _) => s
  | .error _ => "TOKEN"

/-- Token decimals resolved from the metadata call, with the default 18
substituted on failure (src/main.py lines 188-196). -/
def resolvedDecimals : Except String (String × Nat × String) → Nat
  | .ok (_, d, _) => d
  | .error _ => 18

/-- Gas cost in ether of a confirmed transaction,
from_wei(gasUsed * effectiveGasPrice) at src/main.py lines 237 and 303,
modelled exactly over the rationals. -/
def gasUsedEth (tr : TxResult) : ℚ :=
  ((tr.receipt.gasUsed * tr.receipt.effectiveGasPrice : ℕ) : ℚ) / 10 ^ (18 : ℕ)

/-- The success dictionary built at src/main.py lines 247-257 (mint) and
313-323 (transfer). -/
def mkResult (method : String) (c : Contract) (tr : TxResult) (symbol : String)
    (amount : ℚ) : SuccessResult :=
  ⟨method, c.name, c.address, tr.txHash, tr.receipt.blockNumber, symbol,
   gasUsedEth tr, amount⟩

/-- Method 2 of the attempt loop (src/main.py lines 273-329): fetch a fresh
nonce, build and submit the transfer transaction, succeed only on a
status-1 receipt.  Any exception, including one from the fresh-nonce fetch
itself, is caught and the loop moves on (returns none). -/
def transferPart (ce : ContractEnv) (c : Contract) (wallet adminAddr : String)
    (amountWei : ℤ) (bg : Nat) : Option TxResult × List ChainCall :=
  match ce.nonce2 with
  | .error _ => (none, [.methodEntry c.address .transfer, .nonceQuery])
  | .ok n2 =>
    let tx : Tx := ⟨wallet, amountWei, adminAddr, n2, 150000, bg, 1⟩
    let t := [ChainCall.methodEntry c.address .transfer, .nonceQuery,
              .buildTx c.address .transfer tx]
    match ce.transfer with
    | .error _ => (none, t)
    | .ok tr => if tr.receipt.status = 1 then (some tr, t) else (none, t)

/-- One iteration of the attempt loop (src/main.py lines 176-333): bind the
contract, resolve metadata with defaults, scale the amount, fetch gas price
and nonce, then try mint and, if mint did not succeed, transfer.  Failures
of bind, gas-price fetch or nonce fetch are caught by the per-contract
handler at line 331 and exhaust the contract. -/
def attemptContract (env : Env) (wallet : String) (amount : ℚ) (c : Contract) :
    Option SuccessResult × List ChainCall :=
  let ce := env.forContract c.address
  match ce.bind with
  | .error _ => (none, [.bindContract c.address])
  | .ok _ =>
    let symbol := resolvedSymbol ce.metadata
    let decimals := resolvedDecimals ce.metadata
    let amountWei := pyInt (amount * 10 ^ decimals)
    match ce.gasPrice with
    | .error _ => (none, [.bindContract c.address, .metadataQuery c.address,
                          .gasPriceQuery])
    | .ok g =>
      let bg := bufferedGasPrice g
      match ce.nonce1 with
      | .error _ => (none, [.bindContract c.address, .metadataQuery c.address,
                            .gasPriceQuery, .nonceQuery])
      | .ok n1 =>
        let mintTx : Tx := ⟨wallet, amountWei, env.adminAddress, n1, 250000, bg, 1⟩
        let mintTrace := [ChainCall.bindContract c.address, .metadataQuery c.address,
                          .gasPriceQuery, .nonceQuery, .methodEntry c.address .mint,
                          .buildTx c.address .mint mintTx]
        match ce.mint with
        | .ok tr =>
          if tr.receipt.status = 1 then
            (some (mkResult "mint" c tr symbol amount), mintTrace)
          else
            let r2 := transferPart ce c wallet env.adminAddress amountWei bg
            (r2.1.map (fun tr2 => mkResult "transfer" c tr2 symbol amount),
             mintTrace ++ r2.2)
        | .error _ =>
          let r2 := transferPart ce c wallet env.adminAddress amountWei bg
          (r2.1.map (fun tr2 => mkResult "transfer" c tr2 symbol amount),
           mintTrace ++ r2.2)

/-- The attempt loop over the prioritized contract list (src/main.py
lines 176-333): stop at the first success, otherwise accumulate the trace
and move to the next contract. -/
def tryContracts (env : Env) (wallet : String) (amount : ℚ) :
    List Contract → Option SuccessResult × List ChainCall
  | [] => (none, [])
  | c :: rest =>
    let r := attemptContract env wallet amount c
    match r.1 with
    | some res => (some res, r.2)
    | none =>
      let r' := tryContracts env wallet amount rest
      (r'.1, r.2 ++ r'.2)

/-- The fixed detail string of the terminal failure (src/main.py
line 340). -/
def exhaustedMsg : String := "All withdrawal methods exhausted after 6 attempts"

/-- The withdrawal dispatcher process_withdrawal (src/main.py
lines 131-340): readiness check, address check, amount check, contract
priority list, attempt loop, terminal failure.  Returns the result
together with the trace of chain interactions performed. -/
def process_withdrawal (env : Env) (user_wallet : String) (amount_requested : ℚ)
    (preferred_contract : Option String) :
    Except WErr SuccessResult × List ChainCall :=
  if ¬ (env.web3Loaded && env.adminLoaded) then (.error .notReady, [])
  else if ¬ is_address user_wallet then (.error .invalidAddress, [])
  else if amount_requested ≤ 0 ∨ 1000000000 < amount_requested then
    (.error .invalidAmount, [])
  else
    let contract_list := buildContractList preferred_contract
    let r := tryContracts env user_wallet amount_requested contract_list
    match r.1 with
    | some res => (.ok res, r.2)
    | none => (.error (.allExhausted exhaustedMsg), r.2)

/-- The failures the endpoint withdraw_tokens can produce (src/main.py
lines 402-469): its own HTTP errors, plus HTTPExceptions propagated from
process_withdrawal, plus generic exceptions wrapped into a 500. -/
inductive EndpointErr where
  | notReady
  | missingWallet
  | badAmountFormat
  | nonPositiveAmount
  | insufficientGas
  | httpFromDispatch (e : WErr)
  | wrapped (msg : String)
deriving DecidableEq, Repr

/-- Invocation of process_withdrawal from the endpoint (src/main.py
lines 453-469): HTTPExceptions (notReady, allExhausted) are re-raised, any
other exception (the two ValueErrors) is wrapped into a 500 with the
message "Withdrawal failed: ...".  The balance query made just before is
prepended to the trace. -/
def dispatchFromEndpoint (env : Env) (w : String) (a : ℚ)
    (tokenAddress : Option String) : Except EndpointErr SuccessResult × List ChainCall :=
  let r := process_withdrawal env w a tokenAddress
  match r.1 with
  | .ok res => (.ok res, ChainCall.balanceQuery :: r.2)
  | .error WErr.notReady =>
    (.error (.httpFromDispatch .notReady), ChainCall.balanceQuery :: r.2)
  | .error (WErr.allExhausted d) =>
    (.error (.httpFromDispatch (.allExhausted d)), ChainCall.balanceQuery :: r.2)
  | .error WErr.invalidAddress =>
    (.error (.wrapped "Withdrawal failed: Invalid Ethereum address format"),
     ChainCall.balanceQuery :: r.2)
  | .error WErr.invalidAmount =>
    (.error (.wrapped "Withdrawal failed: Amount must be between 0 and 1 billion"),
     ChainCall.balanceQuery :: r.2)

/-- The main withdrawal endpoint withdraw_tokens (src/main.py
lines 402-469).  Inputs: the readiness flag, the request fields
(walletAddress, amount after float() parsing with none meaning the parse
raised, tokenAddress), and the outcome of the admin balance query.  The
gas precheck at lines 440-451 short-circuits with a 503 when the balance
query succeeds and reports less than 0.001 ether; a failed balance query
is only logged and dispatch proceeds. -/
def withdraw_tokens (env : Env) (web3_ready : Bool) (walletAddress : Option String)
    (amountParsed : Option ℚ) (tokenAddress : Option String)
    (balanceFetch : Except String Nat) :
    Except EndpointErr SuccessResult × List ChainCall :=
  if ¬ web3_ready then (.error .notReady, [])
  else
    match walletAddress with
    | none => (.error .missingWallet, [])
    | some w =>
      if w = "" then (.error .missingWallet, [])
      else
        match amountParsed with
        | none => (.error .badAmountFormat, [])
        | some a =>
          if a ≤ 0 then (.error .nonPositiveAmount, [])
          else
            match balanceFetch with
            | .ok wei =>
              if ((wei : ℚ) / 10 ^ (18 : ℕ)) < 1 / 1000 then
                (.error .insufficientGas, [.balanceQuery])
              else dispatchFromEndpoint env w a tokenAddress
            | .error _ => dispatchFromEndpoint env w a tokenAddress

/-- Whether an external call succeeded. -/
def callOk {α : Type} : Except String α → Bool
  | .ok _ => true
  | .error _ => false

/-- Whether a mint or transfer submission failed: either the call raised
(including a confirmation timeout) or the receipt status was not 1. -/
def attemptFails : Except String TxResult → Bool
  | .error _ => true
  | .ok tr => !(tr.receipt.status == 1)

/-- Whether the transfer method block of a contract iteration fails: the
fresh-nonce fetch raises, or the submission fails. -/
def transferFails (ce : ContractEnv) : Bool :=
  match ce.nonce2 with
  | .error _ => true
  | .ok _ => attemptFails ce.transfer

/-- Whether a contract iteration runs both method blocks and both fail:
the per-contract setup calls (bind, gas price, nonce) succeed, and the
mint and transfer attempts each fail. -/
def contractAllFails (ce : ContractEnv) : Bool :=
  callOk ce.bind && callOk ce.gasPrice && callOk ce.nonce1 &&
  attemptFails ce.mint && transferFails ce

/-- The (contract address, method) pairs of the attempts begun in a trace,
in order. -/
def methodEntries : List ChainCall → List (String × MethodKind)
  | [] => []
  | ChainCall.methodEntry a m :: rest => (a, m) :: methodEntries rest
  | _ :: rest => methodEntries rest

/-- A syntactically valid destination wallet used in concrete runs. -/
def goodWallet : String := "0x1111111111111111111111111111111111111111"

/-- A contract oracle whose setup calls succeed and whose mint and
transfer submissions raise with the given reasons. -/
def failCE (m1 m2 : String) : ContractEnv :=
  ⟨.ok (), .error "metadata unavailable", .ok 100, .ok 7, .error m1, .ok 8, .error m2⟩

/-- A ready environment in which every contract fails both methods with
the given reasons. -/
def failEnv (m1 m2 : String) : Env :=
  ⟨true, true, "0xAdAdAdAdAdAdAdAdAdAdAdAdAdAdAdAdAdAdAdAd", fun _ => failCE m1 m2⟩

/-- An environment that is not ready: the web3 instance is not loaded. -/
def notReadyEnv : Env :=
  ⟨false, true, "0xAdAdAdAdAdAdAdAdAdAdAdAdAdAdAdAdAdAdAdAd", fun _ => failCE "x" "y"⟩

/-- A contract oracle that reports zero token decimals and fails both
submissions, used to exhibit the truncation in the amount scaling. -/
def decimals0CE : ContractEnv :=
  ⟨.ok (), .ok ("TOK", 0, "Token"), .ok 100, .ok 7, .error "mint reverted", .ok 8,
   .error "transfer reverted"⟩

/-- A ready environment built over decimals0CE. -/
def decimals0Env : Env :=
  ⟨true, true, "0xAdAdAdAdAdAdAdAdAdAdAdAdAdAdAdAdAdAdAdAd", fun _ => decimals0CE⟩

/-- A mint receipt with status 1. -/
def okTxResult : TxResult := ⟨"0xhash1", ⟨1, 123, 21000, 110⟩⟩

/-- A contract oracle whose metadata call fails and whose mint submission
confirms with status 1. -/
def mintOkCE : ContractEnv :=
  ⟨.ok (), .error "metadata unavailable", .ok 100, .ok 7, .ok okTxResult, .ok 8,
   .error "unused"⟩

/-- A ready environment built over mintOkCE. -/
def mintOkEnv : Env :=
  ⟨true, true, "0xAdAdAdAdAdAdAdAdAdAdAdAdAdAdAdAdAdAdAdAd", fun _ => mintOkCE⟩

/-- Modelled from the spec: the amount-scaling rule of section 4.1,
amountUnits = round(requestedAmount * 10^decimals), written with
round-to-nearest as the spec says.  Compared against the code's pyInt
truncation. -/
def specAmountUnits (a : ℚ) (d : ℕ) : ℤ := round (a * 10 ^ d)

theorem methodEntries_append (s t : List ChainCall) :
    methodEntries (s ++ t) = methodEntries s ++ methodEntries t := by
  induction s with
  | nil => rfl
  | cons e rest ih => cases e <;> simp [methodEntries, ih]

/-- Every contract iteration begins zero attempts, just the mint attempt,
or the mint attempt followed by the transfer attempt, always on its own
contract address. -/
theorem methodEntries_attempt (env : Env) (w : String) (a : ℚ) (c : Contract) :
    methodEntries (attemptContract env w a c).2 = [] ∨
    methodEntries (attemptContract env w a c).2 = [(c.address, MethodKind.mint)] ∨
    methodEntries (attemptContract env w a c).2 =
      [(c.address, MethodKind.mint), (c.address, MethodKind.transfer)] := by
  simp only [attemptContract, transferPart]
  repeat' split
  all_goals simp_all [methodEntries, methodEntries_append]

/-- When the setup calls succeed and both methods fail, a contract
iteration produces no result and begins exactly its two attempts. -/
theorem attempt_allFails (env : Env) (w : String) (a : ℚ) (c : Contract)
    (h : contractAllFails (env.forContract c.address) = true) :
    (attemptContract env w a c).1 = none ∧
    methodEntries (attemptContract env w a c).2 =
      [(c.address, MethodKind.mint), (c.address, MethodKind.transfer)] := by
  simp only [contractAllFails, Bool.and_eq_true] at h
  simp only [attemptContract, transferPart]
  repeat' split
  all_goals
    simp_all [methodEntries, methodEntries_append, callOk, attemptFails, transferFails]

/-- When the setup calls succeed and the mint receipt has status 1, the
contract iteration returns the mint success result at once, with the mint
attempt as its only attempt. -/
theorem attempt_mint_success (env : Env) (w : String) (a : ℚ) (c : Contract)
    (g n1 : Nat) (tr : TxResult)
    (hb : (env.forContract c.address).bind = .ok ())
    (hg : (env.forContract c.address).gasPrice = .ok g)
    (hn : (env.forContract c.address).nonce1 = .ok n1)
    (hm : (env.forContract c.address).mint = .ok tr)
    (hs : tr.receipt.status = 1) :
    attemptContract env w a c =
      (some (mkResult "mint" c tr (resolvedSymbol (env.forContract c.address).metadata) a),
       [ChainCall.bindContract c.address, .metadataQuery c.address, .gasPriceQuery,
        .nonceQuery, .methodEntry c.address .mint,
        .buildTx c.address .mint
          ⟨w, pyInt (a * 10 ^ resolvedDecimals (env.forContract c.address).metadata),
           env.adminAddress, n1, 250000, bufferedGasPrice g, 1⟩]) := by
  simp [attemptContract, hb, hg, hn, hm, hs]

/-- When every contract in the list fails both methods, the loop returns
no result and begins exactly two attempts per contract. -/
theorem tryContracts_all_fail (env : Env) (w : String) (a : ℚ) (cs : List Contract)
    (h : ∀ c ∈ cs, contractAllFails (env.forContract c.address) = true) :
    (tryContracts env w a cs).1 = none ∧
    (methodEntries (tryContracts env w a cs).2).length = 2 * cs.length := by
  induction cs with
  | nil => simp [tryContracts, methodEntries]
  | cons c rest ih =>
    obtain ⟨h1, h2⟩ := attempt_allFails env w a c (h c (by simp))
    obtain ⟨ih1, ih2⟩ := ih (fun c' hc' => h c' (by simp [hc']))
    simp only [tryContracts]
    rw [h1]
    simp [methodEntries_append, h2, ih1, ih2, Nat.mul_succ, Nat.add_comm]
    omega

/-- Every attempt begun by the loop is on the address of a listed
contract. -/
theorem tryContracts_entries_addr (env : Env) (w : String) (a : ℚ) :
    ∀ cs : List Contract, ∀ p ∈ methodEntries (tryContracts env w a cs).2,
      p.1 ∈ cs.map Contract.address := by
  intro cs
  induction cs with
  | nil => simp [tryContracts, methodEntries]
  | cons c rest ih =>
    intro p hp
    have hchar := methodEntries_attempt env w a c
    simp only [tryContracts] at hp
    rcases hr : (attemptContract env w a c).1 with _ | res
    · rw [hr] at hp
      simp only [methodEntries_append] at hp
      rw [List.mem_append] at hp
      rcases hp with hp | hp
      · rcases hchar with hc | hc | hc <;> rw [hc] at hp <;> simp at hp
        · simp [hp]
        · rcases hp with hp | hp <;> simp [hp]
      · have := ih p hp
        simp [this]
    · rw [hr] at hp
      rcases hchar with hc | hc | hc <;> rw [hc] at hp <;> simp at hp
      · simp [hp]
      · rcases hp with hp | hp <;> simp [hp]

theorem methodEntries_attempt_nodup (env : Env) (w : String) (a : ℚ) (c : Contract) :
    (methodEntries (attemptContract env w a c).2).Nodup := by
  rcases methodEntries_attempt env w a c with h | h | h <;> rw [h] <;> simp

theorem methodEntries_attempt_addr (env : Env) (w : String) (a : ℚ) (c : Contract) :
    ∀ p ∈ methodEntries (attemptContract env w a c).2, p.1 = c.address := by
  rcases methodEntries_attempt env w a c with h | h | h <;> rw [h] <;> intro p hp
  · simp at hp
  · simp at hp
    simp [hp]
  · simp at hp
    rcases hp with hp | hp <;> simp [hp]

theorem methodEntries_attempt_len (env : Env) (w : String) (a : ℚ) (c : Contract) :
    (methodEntries (attemptContract env w a c).2).length ≤ 2 := by
  rcases methodEntries_attempt env w a c with h | h | h <;> simp [h]

/-- With pairwise distinct contract addresses, the loop never begins the
same (contract, method) attempt twice. -/
theorem tryContracts_entries_nodup (env : Env) (w : String) (a : ℚ)
    (cs : List Contract) (hnd : (cs.map Contract.address).Nodup) :
    (methodEntries (tryContracts env w a cs).2).Nodup := by
  induction cs with
  | nil => simp [tryContracts, methodEntries]
  | cons c rest ih =>
    simp only [List.map_cons, List.nodup_cons] at hnd
    obtain ⟨hna, hnd'⟩ := hnd
    simp only [tryContracts]
    rcases hr : (attemptContract env w a c).1 with _ | res
    · simp only [methodEntries_append]
      refine List.Nodup.append (methodEntries_attempt_nodup env w a c) (ih hnd') ?_
      intro p hp1 hp2
      have e1 := methodEntries_attempt_addr env w a c p hp1
      have e2 := tryContracts_entries_addr env w a rest p hp2
      rw [e1] at e2
      exact hna e2
    · exact methodEntries_attempt_nodup env w a c

/-- The loop begins at most two attempts per listed contract. -/
theorem tryContracts_entries_len (env : Env) (w : String) (a : ℚ)
    (cs : List Contract) :
    (methodEntries (tryContracts env w a cs).2).length ≤ 2 * cs.length := by
  induction cs with
  | nil => simp [tryContracts, methodEntries]
  | cons c rest ih =>
    simp only [tryContracts]
    rcases hr : (attemptContract env w a c).1 with _ | res
    · simp only [methodEntries_append, List.length_append, List.length_cons,
        Nat.mul_succ]
      have := methodEntries_attempt_len env w a c
      omega
    · simp only [List.length_cons, Nat.mul_succ]
      have := methodEntries_attempt_len env w a c
      omega

/-- The preferred-contract scan of src/main.py lines 159-162 yields the
empty list or the single matching contract. -/
theorem preferredMatches_cases (p : String) :
    preferredMatches p = [] ∨ preferredMatches p = [contract1] ∨
    preferredMatches p = [contract2] ∨ preferredMatches p = [contract3] := by
  simp only [preferredMatches, CONTRACTS, List.foldl_cons, List.foldl_nil,
    contract1, contract2, contract3]
  by_cases h1 : lowerStr "0x29983BE497D4c1D39Aa80D20Cf74173ae81D2af5" = lowerStr p <;>
    by_cases h2 : lowerStr "0x0b8Add0d32eFaF79E6DB4C58CcA61D6eFBCcAa3D" = lowerStr p <;>
    by_cases h3 : lowerStr "0xf97A395850304b8ec9B8f9c80A17674886612065" = lowerStr p
  · exact absurd (h1.trans h2.symm) (by decide)
  · exact absurd (h1.trans h2.symm) (by decide)
  · exact absurd (h1.trans h3.symm) (by decide)
  · simp [h1, h2, h3, contract1]
  · exact absurd (h2.trans h3.symm) (by decide)
  · simp [h1, h2, h3, contract2]
  · simp [h1, h2, h3, contract3]
  · simp [h1, h2, h3]

/-- The attempt list is always one of three orders: the configured order,
or one of the two non-first contracts moved to the front. -/
theorem buildContractList_cases (pref : Option String) :
    buildContractList pref = [contract1, contract2, contract3] ∨
    buildContractList pref = [contract2, contract1, contract3] ∨
    buildContractList pref = [contract3, contract1, contract2] := by
  cases pref with
  | none => left; decide
  | some p =>
    by_cases hp : p = ""
    · left
      simp only [buildContractList, hp, if_pos]
      decide
    · rcases preferredMatches_cases p with h | h | h | h <;>
        simp only [buildContractList, if_neg hp, h]
      · left; decide
      · left; decide
      · right; left; decide
      · right; right; decide

/-- Every attempt list has pairwise distinct addresses and exactly the
three configured contracts. -/
theorem buildContractList_addr_nodup (pref : Option String) :
    ((buildContractList pref).map Contract.address).Nodup ∧
    (buildContractList pref).length = CONTRACTS.length := by
  rcases buildContractList_cases pref with h | h | h <;> rw [h] <;>
    exact ⟨by decide, rfl⟩

/-- On a ready environment and a valid request, process_withdrawal runs
the attempt loop over the priority list and wraps its outcome. -/
theorem process_valid (env : Env) (w : String) (a : ℚ) (pref : Option String)
    (hw3 : env.web3Loaded = true) (had : env.adminLoaded = true)
    (haddr : is_address w = true) (h0 : 0 < a) (hmax : a ≤ 1000000000) :
    process_withdrawal env w a pref =
      (match (tryContracts env w a (buildContractList pref)).1 with
       | some res => Except.ok res
       | none => Except.error (WErr.allExhausted exhaustedMsg),
       (tryContracts env w a (buildContractList pref)).2) := by
  have hcond : ¬ (a ≤ 0 ∨ 1000000000 < a) := by
    push_neg
    exact ⟨h0, hmax⟩
  simp only [process_withdrawal, hw3, had, haddr]
  simp only [hcond]
  rcases h : (tryContracts env w a (buildContractList pref)).1 with _ | res <;>
    simp [h]

/-- C10: process_withdrawal checks chain-client and identity readiness
before input validation: when the web3 instance or the admin account is
not loaded it fails with NotReady, whatever the destination address and
amount are, with no chain interaction and no InvalidAddress or
InvalidAmount raised first. -/
theorem claim_C10 (env : Env) (w : String) (a : ℚ) (pref : Option String)
    (h : env.web3Loaded = false ∨ env.adminLoaded = false) :
    process_withdrawal env w a pref = (.error .notReady, []) := by
  rcases h with h | h <;> simp [process_withdrawal, h]

/-- Witness for C10: an environment without a web3 instance rejects a
request whose address and amount are both also invalid with NotReady. -/
theorem claim_C10_witness :
    process_withdrawal notReadyEnv "nope" (-5) none = (.error .notReady, []) :=
  claim_C10 notReadyEnv "nope" (-5) none (Or.inl rfl)

/-- C3: on a ready environment, a request whose destination passes the
address check but whose amount is nonpositive or above 10^9 fails with
InvalidAmount and an empty chain trace (no chain interaction). -/
theorem claim_C3 (env : Env) (w : String) (a : ℚ) (pref : Option String)
    (hw3 : env.web3Loaded = true) (had : env.adminLoaded = true)
    (haddr : is_address w = true) (hbad : a ≤ 0 ∨ 1000000000 < a) :
    process_withdrawal env w a pref = (.error .invalidAmount, []) := by
  simp [process_withdrawal, hw3, had, haddr, hbad]

/-- Witness for C3: amount 0 is rejected with InvalidAmount and no chain
call. -/
theorem claim_C3_witness :
    process_withdrawal (failEnv "x" "y") goodWallet 0 none =
      (.error .invalidAmount, []) :=
  claim_C3 (failEnv "x" "y") goodWallet 0 none rfl rfl (by decide)
    (Or.inl (by norm_num))

/-- C4: on a ready environment, a request whose destination address fails
the syntactic address check fails with InvalidAddress and an empty chain
trace (no chain interaction). -/
theorem claim_C4 (env : Env) (w : String) (a : ℚ) (pref : Option String)
    (hw3 : env.web3Loaded = true) (had : env.adminLoaded = true)
    (haddr : is_address w = false) :
    process_withdrawal env w a pref = (.error .invalidAddress, []) := by
  simp [process_withdrawal, hw3, had, haddr]

/-- Witness for C4: a malformed address is rejected with InvalidAddress
and no chain call. -/
theorem claim_C4_witness :
    process_withdrawal (failEnv "x" "y") "nope" 5 none =
      (.error .invalidAddress, []) :=
  claim_C4 (failEnv "x" "y") "nope" 5 none rfl rfl (by decide)

/-- On a failEnv environment every dispatch ends in the terminal failure
with the fixed detail string, whatever the per-contract reasons were. -/
theorem failEnv_result (m1 m2 : String) :
    (process_withdrawal (failEnv m1 m2) goodWallet 5 none).1 =
      .error (.allExhausted exhaustedMsg) := by
  rw [process_valid _ _ _ _ rfl rfl (by decide) (by norm_num) (by norm_num)]
  have h := tryContracts_all_fail (failEnv m1 m2) goodWallet 5
    (buildContractList none) (fun c _ => rfl)
  simp [h.1]

/-- C1 counterexample: the terminal failure does not carry a summary of
the last failure reason per contract.  Two runs whose attempts fail for
different reasons produce the same error value, whose detail is the fixed
string of src/main.py line 340. -/
theorem claim_C1_counterexample :
    (process_withdrawal (failEnv "insufficient funds" "nonce too low")
        goodWallet 5 none).1 =
      (process_withdrawal (failEnv "execution reverted" "tx wait timeout")
        goodWallet 5 none).1 ∧
    (process_withdrawal (failEnv "insufficient funds" "nonce too low")
        goodWallet 5 none).1 =
      .error (.allExhausted "All withdrawal methods exhausted after 6 attempts") ∧
    ((failEnv "insufficient funds" "nonce too low").forContract
        contract1.address).mint ≠
      ((failEnv "execution reverted" "tx wait timeout").forContract
        contract1.address).mint :=
  ⟨(failEnv_result _ _).trans (failEnv_result _ _).symm,
   failEnv_result _ _, by intro h; simp [failEnv, failCE] at h⟩

/-- C1 (amended): when every contract's setup calls succeed and every
mint and transfer attempt fails, process_withdrawal fails with the
terminal AllAttemptsExhausted error after exactly 2 x |contracts| begun
attempts, never fewer; the error carries only the fixed detail string,
not a per-contract failure summary. -/
theorem claim_C1 (env : Env) (w : String) (a : ℚ) (pref : Option String)
    (hw3 : env.web3Loaded = true) (had : env.adminLoaded = true)
    (haddr : is_address w = true) (h0 : 0 < a) (hmax : a ≤ 1000000000)
    (hfail : ∀ c ∈ buildContractList pref,
      contractAllFails (env.forContract c.address) = true) :
    (process_withdrawal env w a pref).1 = .error (.allExhausted exhaustedMsg) ∧
    (methodEntries (process_withdrawal env w a pref).2).length =
      2 * CONTRACTS.length := by
  have hp := process_valid env w a pref hw3 had haddr h0 hmax
  have ht := tryContracts_all_fail env w a (buildContractList pref) hfail
  have hlen := (buildContractList_addr_nodup pref).2
  rw [hp]
  refine ⟨by simp [ht.1], ?_⟩
  simp only [ht.1]
  rw [ht.2, hlen]

/-- Witness for C1: a concrete all-failing run ends in AllAttemptsExhausted
after exactly six begun attempts. -/
theorem claim_C1_witness :
    (process_withdrawal (failEnv "boom" "bust") goodWallet 5 none).1 =
      .error (.allExhausted exhaustedMsg) ∧
    (methodEntries (process_withdrawal (failEnv "boom" "bust")
        goodWallet 5 none).2).length = 2 * CONTRACTS.length :=
  claim_C1 (failEnv "boom" "bust") goodWallet 5 none rfl rfl (by decide)
    (by norm_num) (by norm_num) (fun c _ => rfl)

/-- C2: the attempt list places the configured contract whose address
case-insensitively equals the preferred contract first, followed by the
remaining configured contracts in configured order without duplicates;
every list has exactly the configured length; and on any run each
(contract, method) pair is begun at most once, for at most
|contracts| x 2 attempts. -/
theorem claim_C2 :
    (∀ (p : String) (c : Contract), p ≠ "" → c ∈ CONTRACTS →
      lowerStr c.address = lowerStr p →
      buildContractList (some p) = c :: CONTRACTS.erase c) ∧
    (∀ pref : Option String, (buildContractList pref).Nodup ∧
      (buildContractList pref).length = CONTRACTS.length) ∧
    (∀ (env : Env) (w : String) (a : ℚ) (pref : Option String),
      (methodEntries (process_withdrawal env w a pref).2).Nodup ∧
      (methodEntries (process_withdrawal env w a pref).2).length ≤
        CONTRACTS.length * 2) := by
  refine ⟨?_, ?_, ?_⟩
  · intro p c hp hc hmatch
    simp only [CONTRACTS, List.mem_cons, List.not_mem_nil, or_false] at hc
    have habs : ∀ x y : Contract,
        lowerStr x.address = lowerStr p → lowerStr y.address = lowerStr p →
        lowerStr x.address = lowerStr y.address := fun x y hx hy => hx.trans hy.symm
    rcases hc with rfl | rfl | rfl
    · have h2 : ¬ lowerStr contract2.address = lowerStr p := fun h =>
        absurd (habs _ _ hmatch h) (by decide)
      have h3 : ¬ lowerStr contract3.address = lowerStr p := fun h =>
        absurd (habs _ _ hmatch h) (by decide)
      have hpm : preferredMatches p = [contract1] := by
        simp only [preferredMatches, CONTRACTS, List.foldl_cons, List.foldl_nil]
        rw [if_pos hmatch, if_neg h2, if_neg h3]
      simp only [buildContractList, if_neg hp, hpm]
      decide
    · have h1 : ¬ lowerStr contract1.address = lowerStr p := fun h =>
        absurd (habs _ _ h hmatch) (by decide)
      have h3 : ¬ lowerStr contract3.address = lowerStr p := fun h =>
        absurd (habs _ _ hmatch h) (by decide)
      have hpm : preferredMatches p = [contract2] := by
        simp only [preferredMatches, CONTRACTS, List.foldl_cons, List.foldl_nil]
        rw [if_neg h1, if_pos hmatch, if_neg h3]
      simp only [buildContractList, if_neg hp, hpm]
      decide
    · have h1 : ¬ lowerStr contract1.address = lowerStr p := fun h =>
        absurd (habs _ _ h hmatch) (by decide)
      have h2 : ¬ lowerStr contract2.address = lowerStr p := fun h =>
        absurd (habs _ _ h hmatch) (by decide)
      have hpm : preferredMatches p = [contract3] := by
        simp only [preferredMatches, CONTRACTS, List.foldl_cons, List.foldl_nil]
        rw [if_neg h1, if_neg h2, if_pos hmatch]
      simp only [buildContractList, if_neg hp, hpm]
      decide
  · intro pref
    rcases buildContractList_cases pref with h | h | h <;> rw [h] <;>
      exact ⟨by decide, rfl⟩
  · intro env w a pref
    have hnd := buildContractList_addr_nodup pref
    by_cases h1 : (env.web3Loaded && env.adminLoaded) = true
    · by_cases h2 : is_address w = true
      · by_cases h3 : a ≤ 0 ∨ 1000000000 < a
        · simp [process_withdrawal, h1, h2, h3, methodEntries]
        · have hw3 : env.web3Loaded = true := by
            rcases Bool.and_eq_true _ _ |>.mp h1 with ⟨hx, hy⟩
            exact hx
          have had : env.adminLoaded = true := by
            rcases Bool.and_eq_true _ _ |>.mp h1 with ⟨hx, hy⟩
            exact hy
          have h0 : 0 < a := by
            push_neg at h3
            exact h3.1
          have hmax : a ≤ 1000000000 := by
            push_neg at h3
            exact h3.2
          rw [process_valid env w a pref hw3 had h2 h0 hmax]
          rcases hr : (tryContracts env w a (buildContractList pref)).1 with _ | res <;>
            simp only [hr] <;>
            refine ⟨tryContracts_entries_nodup env w a _ hnd.1, ?_⟩ <;>
            calc (methodEntries (tryContracts env w a (buildContractList pref)).2).length
                ≤ 2 * (buildContractList pref).length :=
                  tryContracts_entries_len env w a _
              _ = CONTRACTS.length * 2 := by rw [hnd.2, Nat.mul_comm]
      · have h2' : is_address w = false := by
          simpa using h2
        simp [process_withdrawal, h1, h2', methodEntries]
    · have h1' : (env.web3Loaded && env.adminLoaded) = false := by
        simpa using h1
      simp [process_withdrawal, h1', methodEntries]

/-- When the setup calls succeed, the mint transaction is built with the
truncated scaled amount, the first-fetched nonce, gas limit 250000, the
buffered gas price and chain id 1. -/
theorem mint_buildTx_mem (env : Env) (w : String) (a : ℚ) (c : Contract)
    (g n1 : Nat)
    (hb : (env.forContract c.address).bind = .ok ())
    (hg : (env.forContract c.address).gasPrice = .ok g)
    (hn : (env.forContract c.address).nonce1 = .ok n1) :
    ChainCall.buildTx c.address MethodKind.mint
      ⟨w, pyInt (a * 10 ^ resolvedDecimals (env.forContract c.address).metadata),
       env.adminAddress, n1, 250000, bufferedGasPrice g, 1⟩ ∈
      (attemptContract env w a c).2 := by
  simp only [attemptContract, transferPart, hb, hg, hn]
  repeat' split
  all_goals simp_all

/-- When the setup calls succeed, the mint attempt fails and the fresh
nonce fetch succeeds, the transfer transaction is built with the truncated
scaled amount, the freshly fetched nonce, gas limit 150000, the buffered
gas price and chain id 1. -/
theorem transfer_buildTx_mem (env : Env) (w : String) (a : ℚ) (c : Contract)
    (g n1 n2 : Nat)
    (hb : (env.forContract c.address).bind = .ok ())
    (hg : (env.forContract c.address).gasPrice = .ok g)
    (hn : (env.forContract c.address).nonce1 = .ok n1)
    (hm : attemptFails (env.forContract c.address).mint = true)
    (hn2 : (env.forContract c.address).nonce2 = .ok n2) :
    ChainCall.buildTx c.address MethodKind.transfer
      ⟨w, pyInt (a * 10 ^ resolvedDecimals (env.forContract c.address).metadata),
       env.adminAddress, n2, 150000, bufferedGasPrice g, 1⟩ ∈
      (attemptContract env w a c).2 := by
  simp only [attemptContract, transferPart, hb, hg, hn, hn2]
  repeat' split
  all_goals simp_all [attemptFails]

/-- When the setup calls succeed and the mint attempt fails, the transfer
attempt is begun. -/
theorem transfer_entry_mem (env : Env) (w : String) (a : ℚ) (c : Contract)
    (g n1 : Nat)
    (hb : (env.forContract c.address).bind = .ok ())
    (hg : (env.forContract c.address).gasPrice = .ok g)
    (hn : (env.forContract c.address).nonce1 = .ok n1)
    (hm : attemptFails (env.forContract c.address).mint = true) :
    (c.address, MethodKind.transfer) ∈
      methodEntries (attemptContract env w a c).2 := by
  simp only [attemptContract, transferPart, hb, hg, hn]
  repeat' split
  all_goals simp_all [attemptFails, methodEntries, methodEntries_append]

/-- A transfer transaction is only built when the mint attempt failed, and
it always carries the freshly fetched nonce. -/
theorem transfer_buildTx_inv (env : Env) (w : String) (a : ℚ) (c : Contract)
    (tx : Tx)
    (h : ChainCall.buildTx c.address MethodKind.transfer tx ∈
      (attemptContract env w a c).2) :
    attemptFails (env.forContract c.address).mint = true ∧
    (env.forContract c.address).nonce2 = .ok tx.nonce := by
  revert h
  simp only [attemptContract, transferPart]
  repeat' split
  all_goals intro h
  all_goals simp_all [attemptFails, methodEntries]

/-- A transfer attempt is only begun when the mint attempt failed. -/
theorem transfer_entry_inv (env : Env) (w : String) (a : ℚ) (c : Contract)
    (h : (c.address, MethodKind.transfer) ∈
      methodEntries (attemptContract env w a c).2) :
    attemptFails (env.forContract c.address).mint = true := by
  revert h
  simp only [attemptContract, transferPart]
  repeat' split
  all_goals intro h
  all_goals simp_all [attemptFails, methodEntries, methodEntries_append]

/-- Whatever a contract iteration did, every event of its trace is an
event of the loop's trace when that contract is first in the list. -/
theorem tryContracts_head_trace (env : Env) (w : String) (a : ℚ)
    (c : Contract) (rest : List Contract) :
    ∀ x ∈ (attemptContract env w a c).2,
      x ∈ (tryContracts env w a (c :: rest)).2 := by
  intro x hx
  simp only [tryContracts]
  rcases hr : (attemptContract env w a c).1 with _ | res <;> simp [hx]

/-- Witness for C2: preferring the third contract by its upper-cased
address puts it first, then the others in configured order. -/
theorem claim_C2_witness :
    buildContractList (some "0XF97A395850304B8EC9B8F9C80A17674886612065") =
      contract3 :: CONTRACTS.erase contract3 :=
  claim_C2.1 "0XF97A395850304B8EC9B8F9C80A17674886612065" contract3
    (by decide) (by decide) (by decide)

/-- C5 counterexample: the amount sent on-chain is the truncation, not the
rounding, of requestedAmount * 10^decimals.  With amount 3/2 and resolved
decimals 0 the built mint transaction carries 1 unit, while the spec's
round(3/2 * 10^0) is 2. -/
theorem claim_C5_counterexample :
    ChainCall.buildTx contract1.address MethodKind.mint
        ⟨goodWallet, 1, decimals0Env.adminAddress, 7, 250000, 120, 1⟩ ∈
      (process_withdrawal decimals0Env goodWallet (3 / 2) none).2 ∧
    specAmountUnits (3 / 2) 0 = 2 ∧ (1 : ℤ) ≠ specAmountUnits (3 / 2) 0 := by
  refine ⟨?_, by norm_num [specAmountUnits, round_eq], by norm_num [specAmountUnits, round_eq]⟩
  have h1 := mint_buildTx_mem decimals0Env goodWallet (3 / 2) contract1 100 7 rfl rfl rfl
  have harg : pyInt ((3 : ℚ) / 2 *
      10 ^ resolvedDecimals ((decimals0Env.forContract contract1.address).metadata)) = 1 := by
    norm_num [pyInt, decimals0Env, decimals0CE, resolvedDecimals]
  rw [harg] at h1
  have h2 := tryContracts_head_trace decimals0Env goodWallet (3 / 2) contract1
    [contract2, contract3] _ h1
  rw [process_valid decimals0Env goodWallet (3 / 2) none rfl rfl (by decide)
    (by norm_num) (by norm_num)]
  have hbuild : buildContractList none = contract1 :: [contract2, contract3] := by decide
  rw [hbuild]
  rcases hr : (tryContracts decimals0Env goodWallet (3 / 2)
      (contract1 :: [contract2, contract3])).1 with _ | res <;>
    simp only [hr] <;> exact h2

/-- C5 (amended): for every attempt, the amount sent on-chain in the
contract's smallest unit equals the truncation toward zero (Python int) of
requestedAmount * 10^decimals, where decimals is the contract's resolved
or defaulted decimals value — truncation, not round-to-nearest. -/
theorem claim_C5 (env : Env) (w : String) (a : ℚ) (c : Contract)
    (g n1 n2 : Nat)
    (hb : (env.forContract c.address).bind = .ok ())
    (hg : (env.forContract c.address).gasPrice = .ok g)
    (hn : (env.forContract c.address).nonce1 = .ok n1)
    (hm : attemptFails (env.forContract c.address).mint = true)
    (hn2 : (env.forContract c.address).nonce2 = .ok n2) :
    ChainCall.buildTx c.address MethodKind.mint
      ⟨w, pyInt (a * 10 ^ resolvedDecimals (env.forContract c.address).metadata),
       env.adminAddress, n1, 250000, bufferedGasPrice g, 1⟩ ∈
      (attemptContract env w a c).2 ∧
    ChainCall.buildTx c.address MethodKind.transfer
      ⟨w, pyInt (a * 10 ^ resolvedDecimals (env.forContract c.address).metadata),
       env.adminAddress, n2, 150000, bufferedGasPrice g, 1⟩ ∈
      (attemptContract env w a c).2 :=
  ⟨mint_buildTx_mem env w a c g n1 hb hg hn,
   transfer_buildTx_mem env w a c g n1 n2 hb hg hn hm hn2⟩

/-- Witness for C5: a concrete run in which both transactions are built
with the truncated scaled amount. -/
theorem claim_C5_witness :
    ChainCall.buildTx contract1.address MethodKind.mint
      ⟨goodWallet,
       pyInt (5 * 10 ^ resolvedDecimals ((decimals0Env.forContract contract1.address).metadata)),
       decimals0Env.adminAddress, 7, 250000, bufferedGasPrice 100, 1⟩ ∈
      (attemptContract decimals0Env goodWallet 5 contract1).2 ∧
    ChainCall.buildTx contract1.address MethodKind.transfer
      ⟨goodWallet,
       pyInt (5 * 10 ^ resolvedDecimals ((decimals0Env.forContract contract1.address).metadata)),
       decimals0Env.adminAddress, 8, 150000, bufferedGasPrice 100, 1⟩ ∈
      (attemptContract decimals0Env goodWallet 5 contract1).2 :=
  claim_C5 decimals0Env goodWallet 5 contract1 100 7 8 rfl rfl rfl rfl rfl

/-- C6: when the setup calls succeed and the mint receipt has status 1,
the dispatch returns immediately with method "mint", the contract, the
transaction hash, the block number and the gas cost, having begun no
further attempt; when the mint call fails, the dispatch continues with the
transfer attempt, and an exhausted contract hands over to the next one. -/
theorem claim_C6 (env : Env) (w : String) (a : ℚ) (c : Contract)
    (rest : List Contract) (g n1 : Nat) (tr : TxResult)
    (hb : (env.forContract c.address).bind = .ok ())
    (hg : (env.forContract c.address).gasPrice = .ok g)
    (hn : (env.forContract c.address).nonce1 = .ok n1) :
    ((env.forContract c.address).mint = .ok tr → tr.receipt.status = 1 →
      tryContracts env w a (c :: rest) =
        (some (mkResult "mint" c tr
            (resolvedSymbol (env.forContract c.address).metadata) a),
         [ChainCall.bindContract c.address, .metadataQuery c.address,
          .gasPriceQuery, .nonceQuery, .methodEntry c.address .mint,
          .buildTx c.address .mint
            ⟨w, pyInt (a * 10 ^ resolvedDecimals (env.forContract c.address).metadata),
             env.adminAddress, n1, 250000, bufferedGasPrice g, 1⟩])) ∧
    (attemptFails (env.forContract c.address).mint = true →
      (c.address, MethodKind.transfer) ∈
        methodEntries (attemptContract env w a c).2) ∧
    ((attemptContract env w a c).1 = none →
      (tryContracts env w a (c :: rest)).1 = (tryContracts env w a rest).1) := by
  refine ⟨?_, transfer_entry_mem env w a c g n1 hb hg hn, ?_⟩
  · intro hm hs
    rw [tryContracts, attempt_mint_success env w a c g n1 tr hb hg hn hm hs]
  · intro h
    simp only [tryContracts]
    simp [h]

/-- Witness for C6: a run whose first mint confirms returns at once with
the mint result and a trace ending at the mint attempt. -/
theorem claim_C6_witness :
    tryContracts mintOkEnv goodWallet 5 [contract1, contract2, contract3] =
      (some (mkResult "mint" contract1 okTxResult
          (resolvedSymbol ((mintOkEnv.forContract contract1.address).metadata)) 5),
       [ChainCall.bindContract contract1.address, .metadataQuery contract1.address,
        .gasPriceQuery, .nonceQuery, .methodEntry contract1.address .mint,
        .buildTx contract1.address .mint
          ⟨goodWallet,
           pyInt (5 * 10 ^ resolvedDecimals ((mintOkEnv.forContract contract1.address).metadata)),
           mintOkEnv.adminAddress, 7, 250000, bufferedGasPrice 100, 1⟩]) :=
  (claim_C6 mintOkEnv goodWallet 5 contract1 [contract2, contract3] 100 7
    okTxResult rfl rfl rfl).1 rfl rfl

/-- C7: the transfer method is attempted only when the mint attempt did
not succeed, and a built transfer transaction always carries the nonce the
chain reported in the fresh fetch after the mint attempt, never a cached
one. -/
theorem claim_C7 (env : Env) (w : String) (a : ℚ) (c : Contract) (tx : Tx) :
    ((c.address, MethodKind.transfer) ∈
        methodEntries (attemptContract env w a c).2 →
      attemptFails (env.forContract c.address).mint = true) ∧
    (ChainCall.buildTx c.address MethodKind.transfer tx ∈
        (attemptContract env w a c).2 →
      attemptFails (env.forContract c.address).mint = true ∧
      (env.forContract c.address).nonce2 = .ok tx.nonce) :=
  ⟨transfer_entry_inv env w a c, transfer_buildTx_inv env w a c tx⟩

/-- Witness for C7: in a concrete failing run the built transfer
transaction carries exactly the freshly fetched nonce 8, distinct from the
mint nonce 7. -/
theorem claim_C7_witness :
    attemptFails ((failEnv "mint down" "transfer down").forContract
        contract1.address).mint = true ∧
    ((failEnv "mint down" "transfer down").forContract
        contract1.address).nonce2 = .ok 8 :=
  (claim_C7 (failEnv "mint down" "transfer down") goodWallet 5 contract1
      ⟨goodWallet,
       pyInt (5 * 10 ^ resolvedDecimals
         (((failEnv "mint down" "transfer down").forContract contract1.address).metadata)),
       (failEnv "mint down" "transfer down").adminAddress, 8, 150000,
       bufferedGasPrice 100, 1⟩).2
    (transfer_buildTx_mem (failEnv "mint down" "transfer down") goodWallet 5
      contract1 100 7 8 rfl rfl rfl rfl rfl)

/-- C8: when the token-metadata call fails, the attempt proceeds with the
defaults: the mint attempt is begun, its transaction scales the amount
with the default 18 decimals, and a successful result carries the default
symbol TOKEN. -/
theorem claim_C8 (env : Env) (w : String) (a : ℚ) (c : Contract)
    (g n1 : Nat) (e : String) (r : SuccessResult)
    (hb : (env.forContract c.address).bind = .ok ())
    (hmeta : (env.forContract c.address).metadata = .error e)
    (hg : (env.forContract c.address).gasPrice = .ok g)
    (hn : (env.forContract c.address).nonce1 = .ok n1) :
    (c.address, MethodKind.mint) ∈ methodEntries (attemptContract env w a c).2 ∧
    ChainCall.buildTx c.address MethodKind.mint
      ⟨w, pyInt (a * 10 ^ (18 : ℕ)), env.adminAddress, n1, 250000,
       bufferedGasPrice g, 1⟩ ∈ (attemptContract env w a c).2 ∧
    ((attemptContract env w a c).1 = some r → r.symbol = "TOKEN") := by
  refine ⟨?_, ?_, ?_⟩
  · simp only [attemptContract, transferPart, hb, hg, hn]
    repeat' split
    all_goals simp_all [methodEntries, methodEntries_append]
  · have h1 := mint_buildTx_mem env w a c g n1 hb hg hn
    rw [hmeta] at h1
    simpa [resolvedDecimals] using h1
  · simp only [attemptContract, transferPart, hb, hg, hn, hmeta]
    repeat' split
    all_goals intro hr
    all_goals simp_all [mkResult, resolvedSymbol]
    all_goals rw [← hr]

/-- Witness for C8: a run with failed metadata and a confirmed mint
returns a result whose symbol is the default TOKEN. -/
theorem claim_C8_witness :
    (contract1.address, MethodKind.mint) ∈
      methodEntries (attemptContract mintOkEnv goodWallet 5 contract1).2 ∧
    ChainCall.buildTx contract1.address MethodKind.mint
      ⟨goodWallet, pyInt (5 * 10 ^ (18 : ℕ)), mintOkEnv.adminAddress, 7, 250000,
       bufferedGasPrice 100, 1⟩ ∈ (attemptContract mintOkEnv goodWallet 5 contract1).2 ∧
    ((attemptContract mintOkEnv goodWallet 5 contract1).1 =
        some (mkResult "mint" contract1 okTxResult "TOKEN" 5) →
      (mkResult "mint" contract1 okTxResult "TOKEN" 5).symbol = "TOKEN") :=
  claim_C8 mintOkEnv goodWallet 5 contract1 100 7 "metadata unavailable"
    (mkResult "mint" contract1 okTxResult "TOKEN" 5) rfl rfl rfl rfl

/-- C9: when the endpoint's balance check succeeds and reports the admin
balance below 0.001 ether, the call fails with the insufficient-gas 503
before any withdrawal attempt: the trace holds only the balance query, no
contract attempt. -/
theorem claim_C9 (env : Env) (w : String) (a : ℚ) (tok : Option String)
    (wei : ℕ) (hw : w ≠ "") (ha : 0 < a)
    (hbal : ((wei : ℚ) / 10 ^ (18 : ℕ)) < 1 / 1000) :
    withdraw_tokens env true (some w) (some a) tok (.ok wei) =
      (.error .insufficientGas, [.balanceQuery]) := by
  simp only [withdraw_tokens]
  rw [if_neg (by simp), if_neg hw, if_neg (not_le.mpr ha), if_pos hbal]

/-- Witness for C9: a balance of 10^14 wei (0.0001 ether) short-circuits
the endpoint with the insufficient-gas error and a single balance query. -/
theorem claim_C9_witness :
    withdraw_tokens (failEnv "x" "y") true (some goodWallet) (some 5) none
      (.ok 100000000000000) = (.error .insufficientGas, [.balanceQuery]) :=
  claim_C9 (failEnv "x" "y") goodWallet 5 none 100000000000000
    (by decide) (by norm_num) (by norm_num)
